import Mathlib

/-!
Verification of `src/knowledge_scrapers/documentation_scraper.rs` (Marina).

The development shallowly embeds the extraction-and-crawl pipeline of the
documentation scraper.  External collaborators (the HTTP client, the HTML
parser/selector engine, the `url` crate, the regex engine and the system
clock) are modelled abstractly: a document is the bundle of query results
the scraper reads from it, URL parsing/joining is an explicit environment
of partial functions, selector parsing is an oracle saying which selector
strings parse, and timestamps are an explicit parameter.  Everything the
scraper itself computes (field extraction, filtering, fallback chains,
counting, the visited-set protocol) is translated directly from the
source.

Rust string operations are modelled on Lean strings viewed as character
lists (Lean's own `String.trim` etc. are built on byte positions and do
not reduce in the kernel); lengths are character counts, which agree with
Rust's byte counts on ASCII data.
-/

namespace DocScraper

/-! ## String toolkit (models of the Rust `str` operations used) -/

/-- Model of Rust `str::trim`: remove leading and trailing whitespace. -/
def strTrim (s : String) : String :=
  ⟨((s.data.dropWhile Char.isWhitespace).reverse.dropWhile Char.isWhitespace).reverse⟩

/-- Model of Rust `str::starts_with` for string patterns. -/
def strStartsWith (s p : String) : Bool := p.data.isPrefixOf s.data

/-- Model of Rust `str::to_lowercase` (ASCII-faithful). -/
def strToLower (s : String) : String := ⟨s.data.map Char.toLower⟩

/-- Model of Rust `str::to_uppercase` (ASCII-faithful). -/
def strToUpper (s : String) : String := ⟨s.data.map Char.toUpper⟩

/-- Drop the first `n` characters of a string. -/
def strDrop (s : String) (n : Nat) : String := ⟨s.data.drop n⟩

/-- Helper for `strSplitWhitespace`: split a character list at whitespace. -/
def splitWsAux : List Char → List Char → List (List Char)
  | [], acc => [acc.reverse]
  | c :: rest, acc =>
    if c.isWhitespace then acc.reverse :: splitWsAux rest []
    else splitWsAux rest (c :: acc)

/-- Model of Rust `str::split_whitespace`: whitespace-separated words, no
empty words. -/
def strSplitWhitespace (s : String) : List String :=
  ((splitWsAux s.data []).filter (fun w => w ≠ [])).map String.mk

/-- Model of `s.replace('-', " ").replace('_', " ")` from
`extract_section_info` (lines 342 and 347 of the source). -/
def replaceDashUnderscore (s : String) : String :=
  ⟨s.data.map (fun c => if c == '-' || c == '_' then ' ' else c)⟩

/-- Translation of the free function `capitalize_words` (source lines
668-679): split on whitespace, uppercase the first character of each word,
lowercase the rest, join with single spaces. -/
def capitalize_words (s : String) : String :=
  String.intercalate " "
    ((strSplitWhitespace s).map (fun w =>
      match w.data with
      | [] => ""
      | c :: rest => ⟨Char.toUpper c :: rest.map Char.toLower⟩))

/-! ## Data model (source lines 14-60) -/

/-- `CodeExample` (source lines 14-19). -/
structure CodeExample where
  language : String
  code : String
  description : Option String
deriving DecidableEq

/-- `ApiParameter` (source lines 21-27). -/
structure ApiParameter where
  name : String
  param_type : String
  description : String
  required : Bool
deriving DecidableEq

/-- `ApiEndpoint` (source lines 29-37). -/
structure ApiEndpoint where
  method : String
  path : String
  description : String
  parameters : List ApiParameter
  response_format : Option String
  code_examples : List CodeExample
deriving DecidableEq

/-- `DocumentationPage` (source lines 39-51).  The Rust field `section`
is rendered `sectionName` because `section` is a Lean keyword. -/
structure DocumentationPage where
  url : String
  title : String
  content : String
  sectionName : Option String
  subsection : Option String
  api_endpoints : List ApiEndpoint
  code_examples : List CodeExample
  last_updated : Option String
  tags : List String
  scraped_at : String
deriving DecidableEq

/-- `PlatformConfig` (source lines 53-60). -/
structure PlatformConfig where
  content_selector : String
  title_selector : String
  code_selector : String
  navigation_selector : String
  api_selector : Option String
deriving DecidableEq

/-! ## Extraction-profile registry (source lines 72-113) -/

/-- The `generic` profile inserted at source lines 107-113. -/
def genericConfig : PlatformConfig :=
  { content_selector := "main, .content, .documentation"
    title_selector := "h1"
    code_selector := "pre, code"
    navigation_selector := "nav a, .toc a"
    api_selector := none }

/-- The registry contents built in `DocumentationScraperRust::new`
(source lines 73-113), as an association list in insertion order. -/
def configsList : List (String × PlatformConfig) :=
  [ ("gitbook",
     { content_selector := ".page-inner"
       title_selector := "h1"
       code_selector := "pre code"
       navigation_selector := ".summary a"
       api_selector := none }),
    ("readthedocs",
     { content_selector := "[role=\"main\"]"
       title_selector := "h1"
       code_selector := ".highlight pre"
       navigation_selector := ".toctree-l1 a"
       api_selector := none }),
    ("swagger",
     { content_selector := ".swagger-ui"
       title_selector := "h1"
       code_selector := ".example pre"
       navigation_selector := ".operations-tag a"
       api_selector := some ".opblock" }),
    ("sphinx",
     { content_selector := ".body"
       title_selector := "h1"
       code_selector := ".highlight pre"
       navigation_selector := ".toctree-l1 a"
       api_selector := none }),
    ("generic", genericConfig) ]

/-- Model of `self.configs.get(key)`. -/
def configsGet (key : String) : Option PlatformConfig :=
  (configsList.find? (fun kv => kv.1 == key)).map (fun kv => kv.2)

/-- Model of the lookup idiom
`self.configs.get(&self.platform).unwrap_or_else(|| self.configs.get("generic").unwrap())`
(source lines 132-133, 199-200, 430-431, 500-501).  The inner `unwrap` is
modelled by keeping the `Option`: the lookup is safe exactly because the
result is never `none`. -/
def lookupConfig (platform : String) : Option PlatformConfig :=
  (configsGet platform).orElse (fun _ => configsGet "generic")

/-! ## Language detection (source lines 146-162) -/

/-- The whitelist of bare language class names (source line 152). -/
def languageWhitelist : List String :=
  ["python", "javascript", "java", "rust", "go", "cpp", "bash"]

/-- Translation of the language-detection expression of
`extract_code_examples` (source lines 147-162): the first class, in
class-list order, that either starts with `language-` or is in the
whitelist decides the language; the `language-` head is stripped. -/
def detectLanguage (classes : List String) : String :=
  match classes.find? (fun c =>
      strStartsWith c "language-" || languageWhitelist.contains c) with
  | some c => if strStartsWith c "language-" then strDrop c ("language-").length else c
  | none => "text"

/-- Resolution order as the specification words it: a `language-` class
wins over any whitelist class, then the whitelist, then `"text"`.
Written from the spec, to be compared with `detectLanguage`. -/
def detectLanguageSpecOrder (classes : List String) : String :=
  match classes.find? (fun c => strStartsWith c "language-") with
  | some c => strDrop c ("language-").length
  | none =>
    match classes.find? (fun c => languageWhitelist.contains c) with
    | some c => c
    | none => "text"

/-- The amended resolution order: scan the class list left to right and
take the first class matching either rule. -/
def detectLanguageFirstMatch (classes : List String) : String :=
  match classes with
  | [] => "text"
  | c :: rest =>
    if strStartsWith c "language-" then strDrop c ("language-").length
    else if languageWhitelist.contains c then c
    else detectLanguageFirstMatch rest

/-! ## Document model

A parsed HTML document is modelled as the bundle of query results the
scraper reads from it through the selector engine (an external
collaborator, spec section 6): for each fixed query the source makes, the
document carries the matching elements in document order, each element
carrying the attributes, text nodes and tree context the source reads. -/

/-- The node found at `element.parent().prev_sibling()` for a code
element (source lines 165-167): `isElem` records whether
`ElementRef::wrap` succeeds on it, and `name`/`texts` are its tag name
and text nodes when it is an element. -/
structure PrevNode where
  isElem : Bool
  name : String
  texts : List String
deriving DecidableEq

/-- An element matched by the code selector: its class list (in class
attribute order), its text nodes (in order), and its parent's preceding
sibling, when the parent and that sibling exist. -/
structure CodeElem where
  classes : List String
  texts : List String
  parentPrev : Option (Option PrevNode)
deriving DecidableEq

/-- An element matched by the navigation selector: its optional `href`
attribute. -/
structure NavElem where
  href : Option String
deriving DecidableEq

/-- An element matched by a parameter-block selector inside an API block
(source lines 280-311): first-match text of the three constant
sub-selectors, when present. -/
structure ParamBlock where
  nameMatches : List String
  typeMatches : List String
  descMatches : List String
deriving DecidableEq

/-- An element matched by the API selector (source lines 217-278):
first-match text lists of the constant sub-selectors, the parameter
blocks, and the texts of the `.example pre` matches. -/
structure ApiBlock where
  methodMatches : List String
  pathMatches : List String
  descMatches : List String
  paramBlocks : List ParamBlock
  exampleTexts : List String
deriving DecidableEq

/-- A parsed document, as the scraper queries it. `titleMatches` and
`contentMatches` list the text nodes of each element matching the
profile's title/content selector; `breadcrumbTexts` is the collected
text of each element matching the constant breadcrumb selector. -/
structure Doc where
  titleMatches : List (List String)
  contentMatches : List (List String)
  codeElems : List CodeElem
  breadcrumbTexts : List String
  navElems : List NavElem
  apiBlocks : List ApiBlock
deriving DecidableEq

/-- Model of the `url` crate (external collaborator): the data the
scraper reads off a parsed URL. `host` models `Url::host()` (an
`Option`), `pathSegments` models `Url::path_segments()` collected to a
list (`None` for cannot-be-a-base URLs). -/
structure UrlV where
  host : Option String
  pathSegments : Option (List String)
deriving DecidableEq

/-- The URL environment: `parse` models `Url::parse` (`none` = `Err`),
`join` models `Url::join`, `render` models `Url::to_string()`. -/
structure UrlEnv where
  parse : String → Option UrlV
  join : UrlV → String → Option UrlV
  render : UrlV → String

/-! ## Code-example extraction (source lines 131-196) -/

/-- Model of `element.text().collect::<Vec<_>>().join(" ").trim()`. -/
def joinedTrimmedText (texts : List String) : String :=
  strTrim (String.intercalate " " texts)

/-- Translation of the description lookup of `extract_code_examples`
(source lines 164-186): the parent's immediately preceding sibling, when
it wraps to an element named `p` whose joined trimmed text is nonempty
and shorter than 200, provides the description. -/
def extractDescription (e : CodeElem) : Option String :=
  match e.parentPrev with
  | some (some node) =>
    if node.isElem then
      if node.name == "p" then
        let desc := joinedTrimmedText node.texts
        if desc ≠ "" && desc.length < 200 then some desc else none
      else none
    else none
  | _ => none

/-- Translation of the loop body of `extract_code_examples` (source
lines 138-193): join and trim the element text, drop snippets shorter
than 10, detect the language from the class list, attach the optional
description. -/
def extract_code_examples (elems : List CodeElem) : List CodeExample :=
  elems.filterMap (fun e =>
    let code_content := joinedTrimmedText e.texts
    if code_content.length < 10 then none
    else some
      { language := detectLanguage e.classes
        code := code_content
        description := extractDescription e })

/-! ## Section extraction (source lines 313-358) -/

/-- Translation of `extract_section_info`: breadcrumbs first (trimmed,
non-empty texts of the constant breadcrumb selector, which always
parses); when fewer than two remain, fall back to the URL path segments;
otherwise both fields are unset. -/
def extract_section_info (env : UrlEnv) (breadcrumbTexts : List String)
    (url : String) : Option String × Option String :=
  let breadcrumbs := (breadcrumbTexts.map strTrim).filter (fun s => s ≠ "")
  if 1 < breadcrumbs.length then
    (breadcrumbs.get? (breadcrumbs.length - 2),
     if 2 < breadcrumbs.length then breadcrumbs.getLast? else none)
  else
    match env.parse url with
    | some u =>
      let path_segments := u.pathSegments.getD []
      if 1 < path_segments.length then
        ((path_segments.get? (path_segments.length - 2)).map
           (fun s => capitalize_words (replaceDashUnderscore s)),
         if 2 < path_segments.length then
           path_segments.getLast?.map
             (fun s => capitalize_words (replaceDashUnderscore s))
         else none)
      else (none, none)
    | none => (none, none)

/-! ## Tag extraction (source lines 360-389)

The regex collaborator is modelled by word matching: every pattern in the
source is an alternation of word-boundary-delimited literal words, so
`Regex::is_match` holds iff one of the words occurs in the text delimited
by non-word characters or the text's ends. -/

/-- Word characters in the sense of the regex `\b` boundary. -/
def isWordChar (c : Char) : Bool := c.isAlphanum || c == '_'

/-- A boundary is the text edge or a non-word character. -/
def boundaryOk : Option Char → Bool
  | none => true
  | some c => !isWordChar c

/-- The word `w` occurs at the head of `s` with a word boundary after
it. -/
def wordAt (s w : List Char) : Bool :=
  w.isPrefixOf s && boundaryOk (s.drop w.length).head?

/-- The word `w` occurs somewhere in `s`, both ends on a boundary;
`prev` is the character preceding `s`, if any. -/
def wordOccursFrom (prev : Option Char) (s w : List Char) : Bool :=
  (boundaryOk prev && wordAt s w) ||
    match s with
    | [] => false
    | c :: rest => wordOccursFrom (some c) rest w

/-- Model of `Regex::is_match` for one word of a tag pattern. -/
def containsWord (text w : String) : Bool := wordOccursFrom none text.data w.data

/-- The fixed (pattern, tag) table of `extract_tags` (source lines
367-378), with each pattern as its list of alternated words. -/
def tagPatterns : List (List String × String) :=
  [ (["api", "endpoint", "rest"], "api"),
    (["tutorial", "guide", "walkthrough"], "tutorial"),
    (["reference", "docs", "documentation"], "reference"),
    (["install", "setup", "configuration"], "installation"),
    (["auth", "login", "token", "security"], "authentication"),
    (["database", "sql", "mongo", "mysql"], "database"),
    (["frontend", "ui", "javascript", "react"], "frontend"),
    (["backend", "server", "node", "python"], "backend"),
    (["mobile", "ios", "android", "app"], "mobile"),
    (["deploy", "production", "hosting"], "deployment") ]

/-- Translation of `extract_tags` (source lines 360-389): lower-case and
concatenate title, content and section with single spaces, then collect
the tags whose pattern matches. -/
def extract_tags (title content : String) (sectionName : Option String) :
    List String :=
  let text := strToLower title ++ " " ++ strToLower content ++ " " ++
    strToLower (sectionName.getD "")
  tagPatterns.filterMap (fun pt =>
    if pt.1.any (fun w => containsWord text w) then some pt.2 else none)

/-! ## API endpoint extraction (source lines 198-311) -/

/-- Translation of `parse_api_parameter` (source lines 280-311): the
name is mandatory (first match of the name selector); type defaults to
`"string"`, description to `""`; `required` is hard-coded `false`. -/
def parse_api_parameter (pb : ParamBlock) : Option ApiParameter :=
  (pb.nameMatches.head?).map (fun n =>
    { name := strTrim n
      param_type := ((pb.typeMatches.head?).map strTrim).getD "string"
      description := ((pb.descMatches.head?).map strTrim).getD ""
      required := false })

/-- Translation of `parse_api_endpoint` (source lines 217-278): method
and path are mandatory; the method is uppercased; parameters and example
code blocks are best-effort. -/
def parse_api_endpoint (b : ApiBlock) : Option ApiEndpoint :=
  (b.methodMatches.head?).bind (fun m =>
    (b.pathMatches.head?).map (fun p =>
      { method := strToUpper (strTrim m)
        path := strTrim p
        description := ((b.descMatches.head?).map strTrim).getD ""
        parameters := b.paramBlocks.filterMap parse_api_parameter
        response_format := none
        code_examples := b.exampleTexts.filterMap (fun t =>
          let code := strTrim t
          if code ≠ "" then
            some { language := "json", code := code
                   description := some "API response example" }
          else none) }))

/-- Translation of `extract_api_endpoints` (source lines 198-215): only
when the profile has an API selector and it parses (`if let Ok`, a
silent per-selector skip) are the matching blocks parsed.  `selOk` is
the selector-parse oracle. -/
def extract_api_endpoints (selOk : String → Bool) (config : PlatformConfig)
    (doc : Doc) : List ApiEndpoint :=
  match config.api_selector with
  | some s => if selOk s then doc.apiBlocks.filterMap parse_api_endpoint else []
  | none => []

/-! ## Page extraction (source lines 429-486)

`scrape_documentation_page` after a successful fetch and parse.  The
three outcomes of the Rust code are modelled by
`Except Unit (Option DocumentationPage)`: `.error ()` is a panic (an
`unwrap` firing), `.ok none` is a skip (`return None`), `.ok (some p)`
is a produced page record.  `selOk` tells which selector strings
`Selector::parse` accepts, `now` is the wall clock reading. -/

/-- Model of the content computed at source lines 442-447: text of the
first content-selector match joined with newlines, trimmed; empty when
there is no match. -/
def extractContent (doc : Doc) : String :=
  ((doc.contentMatches.head?).map
    (fun ts => strTrim (String.intercalate "\n" ts))).getD ""

/-- Model of the title computed at source lines 434-439: text of the
first title-selector match concatenated and trimmed, with the fixed
fallback. -/
def extractTitle (doc : Doc) : String :=
  ((doc.titleMatches.head?).map
    (fun ts => strTrim (String.join ts))).getD "Documentation Page"

/-- Translation of the extraction part of `scrape_documentation_page`
(source lines 429-486).  Title and content selectors go through
`Selector::parse(...).ok()?` — an unparsable one is a skip.  The code
selector goes through `Selector::parse(...).unwrap()` inside
`extract_code_examples` (source line 135) — an unparsable one is a
panic. -/
def scrape_page_extract (selOk : String → Bool) (env : UrlEnv)
    (config : PlatformConfig) (doc : Doc) (url : String) (now : Nat) :
    Except Unit (Option DocumentationPage) :=
  if ¬ selOk config.title_selector then .ok none
  else
    let title := extractTitle doc
    if ¬ selOk config.content_selector then .ok none
    else
      let content := extractContent doc
      if content.length < 100 then .ok none
      else
        let si := extract_section_info env doc.breadcrumbTexts url
        if ¬ selOk config.code_selector then .error ()
        else
          let code_examples := extract_code_examples doc.codeElems
          let api_endpoints := extract_api_endpoints selOk config doc
          let tags := extract_tags title content si.1
          .ok (some
            { url := url
              title := title
              content := content
              sectionName := si.1
              subsection := si.2
              api_endpoints := api_endpoints
              code_examples := code_examples
              last_updated := none
              tags := tags
              scraped_at := toString now })

/-! ## Link discovery (source lines 488-526) -/

/-- Translation of the navigation loop of `discover_documentation_links`
(source lines 506-523): stop at `max_pages` collected links, resolve each
`href` against the base, keep only same-host resolutions. -/
def discoverLoop (env : UrlEnv) (base_url : String) (max_pages : Nat) :
    List NavElem → List String → List String
  | [], doc_links => doc_links
  | e :: rest, doc_links =>
    if max_pages ≤ doc_links.length then doc_links
    else
      match e.href with
      | none => discoverLoop env base_url max_pages rest doc_links
      | some href =>
        match (env.parse base_url).bind (fun b => env.join b href) with
        | none => discoverLoop env base_url max_pages rest doc_links
        | some full_url =>
          let url_str := env.render full_url
          match env.parse base_url, env.parse url_str with
          | some base_parsed, some link_parsed =>
            if base_parsed.host == link_parsed.host then
              discoverLoop env base_url max_pages rest (doc_links ++ [url_str])
            else discoverLoop env base_url max_pages rest doc_links
          | _, _ => discoverLoop env base_url max_pages rest doc_links

/-- What one navigation element contributes: `none` when it has no
`href`, its resolution fails, a re-parse fails, or the host differs. -/
def elemResolved (env : UrlEnv) (base_url : String) (e : NavElem) :
    Option String :=
  e.href.bind (fun href =>
    ((env.parse base_url).bind (fun b => env.join b href)).bind (fun full_url =>
      let url_str := env.render full_url
      match env.parse base_url, env.parse url_str with
      | some base_parsed, some link_parsed =>
        if base_parsed.host == link_parsed.host then some url_str else none
      | _, _ => none))

/-- Translation of `discover_documentation_links` (source lines
488-526) after the base-URL fetch: `fetched` is the parsed document
(`none` when the fetch failed or had a bad status, giving `Vec::new()`),
and the navigation selector goes through `Selector::parse(...).unwrap()`
(source line 503) — an unparsable one is a panic. -/
def discover_documentation_links (selOk : String → Bool) (env : UrlEnv)
    (config : PlatformConfig) (fetched : Option Doc) (base_url : String)
    (max_pages : Nat) : Except Unit (List String) :=
  match fetched with
  | none => .ok []
  | some doc =>
    if selOk config.navigation_selector then
      .ok ((discoverLoop env base_url max_pages doc.navElems []).take max_pages)
    else .error ()

/-! ## Site crawl (source lines 528-562) -/

/-- Model of unsigned (`usize`) subtraction: `none` is the overflow
panic of a checked build. -/
def checkedSub (a b : Nat) : Option Nat := if b ≤ a then some (a - b) else none

/-- Translation of the frontier construction of
`scrape_documentation_site` (source lines 531-539): seed with the base
URL, extend with links discovered under the cap `max_pages - 1`
(unsigned subtraction, evaluated before the discovery fetch), truncate
to `max_pages`. -/
def scrape_site_frontier (selOk : String → Bool) (env : UrlEnv)
    (config : PlatformConfig) (fetched : Option Doc) (base_url : String)
    (max_pages : Nat) : Except Unit (List String) :=
  match checkedSub max_pages 1 with
  | none => .error ()
  | some cap =>
    (discover_documentation_links selOk env config fetched base_url cap).map
      (fun discovered => (base_url :: discovered).take max_pages)

/-- Model of the fan-out-and-collect stage of `scrape_documentation_site`
(source lines 541-561): each frontier URL is fetched (`fetch` is the
transport collaborator) and extracted, and exactly the non-skip results
are collected (`results.into_iter().filter_map(|x| x)`).  The model
serializes the `join_all` and leaves out the visited-set dedup, which
can only drop further pages. -/
def scrape_site_collect (selOk : String → Bool) (env : UrlEnv)
    (config : PlatformConfig) (fetch : String → Option Doc) (now : Nat)
    (urls : List String) : List DocumentationPage :=
  urls.filterMap (fun u =>
    (fetch u).bind (fun doc =>
      match scrape_page_extract selOk env config doc u now with
      | .ok (some p) => some p
      | _ => none))

/-! ## Visited-set protocol (source lines 391-402)

`scrape_documentation_page` opens with two separate critical sections on
`visited_urls`: one lock acquisition for `contains` (lines 392-397,
returning `None` when present) and a second, independent acquisition for
`insert` (lines 399-402).  For `N` tasks racing on one URL, each task is
a two-step program — an atomic membership check, then (when the check
saw the URL absent) an atomic insert after which it proceeds to fetch.
A schedule is a sequence of task indices; each occurrence runs that
task's next pending step.  Phases: `0` = before the check, `1` = checked
absent (insert pending), `2` = inserted and proceeding to fetch, `3` =
checked present and skipped. -/

/-- One scheduler step of the check-then-insert protocol: task `t`'s
next pending lock-protected action runs atomically on the shared
visited flag for the contended URL. -/
def visitedStep (st : Bool × List Nat) (t : Nat) : Bool × List Nat :=
  match st.2.get? t with
  | some 0 =>
    if st.1 then (st.1, st.2.set t 3) else (st.1, st.2.set t 1)
  | some 1 => (true, st.2.set t 2)
  | _ => st

/-- Run a schedule over `n` tasks all calling
`scrape_documentation_page` with the same URL, starting from an empty
visited set. -/
def runVisitedSchedule (n : Nat) (sched : List Nat) : Bool × List Nat :=
  sched.foldl visitedStep (false, List.replicate n 0)

/-- How many tasks end the schedule having claimed the URL and
proceeding to fetch it. -/
def proceedCount (n : Nat) (sched : List Nat) : Nat :=
  ((runVisitedSchedule n sched).2.filter (fun ph => ph == 2)).length

/-- A schedule is complete when every task has finished (skipped or
proceeding). -/
def scheduleComplete (n : Nat) (sched : List Nat) : Bool :=
  (runVisitedSchedule n sched).2.all (fun ph => ph == 2 || ph == 3)

/-! ## Report aggregation (source lines 611-665) -/

/-- A statistic value: a number or a counting table (the
`serde_json::Value` shapes `analyze_documentation` produces). -/
inductive StatValue where
  | num (n : Nat)
  | table (m : List (String × Nat))
deriving DecidableEq

/-- Model of `*map.entry(key).or_insert(0) += 1` over an association
list. -/
def bumpCount (m : List (String × Nat)) (key : String) : List (String × Nat) :=
  if m.any (fun kv => kv.1 == key) then
    m.map (fun kv => if kv.1 == key then (kv.1, kv.2 + 1) else kv)
  else m ++ [(key, 1)]

/-- Per-section page counts (source lines 622-627). -/
def sectionCounts (pages : List DocumentationPage) : List (String × Nat) :=
  pages.foldl (fun m p =>
    match p.sectionName with
    | some s => bumpCount m s
    | none => m) []

/-- Per-tag counts (source lines 631-636). -/
def tagCounts (pages : List DocumentationPage) : List (String × Nat) :=
  pages.foldl (fun m p => p.tags.foldl bumpCount m) []

/-- Per-language code-example counts (source lines 643-648). -/
def languageCounts (pages : List DocumentationPage) : List (String × Nat) :=
  pages.foldl (fun m p =>
    p.code_examples.foldl (fun m e => bumpCount m e.language) m) []

/-- The average-content-length computation (source lines 656-661):
integer division, `0` on an empty length list. -/
def avgContentLength (content_lengths : List Nat) : Nat :=
  if !content_lengths.isEmpty then
    content_lengths.sum / content_lengths.length
  else 0

/-- Translation of `analyze_documentation` (source lines 611-665): an
empty page list yields an empty map; otherwise the seven statistics, as
an association list in insertion order. -/
def analyze_documentation (pages : List DocumentationPage) :
    List (String × StatValue) :=
  if pages.isEmpty then []
  else
    [ ("total_pages", .num pages.length),
      ("sections", .table (sectionCounts pages)),
      ("tags", .table (tagCounts pages)),
      ("total_code_examples", .num (pages.map (fun p => p.code_examples.length)).sum),
      ("programming_languages", .table (languageCounts pages)),
      ("total_api_endpoints", .num (pages.map (fun p => p.api_endpoints.length)).sum),
      ("avg_content_length", .num (avgContentLength (pages.map (fun p => p.content.length)))) ]

/-- Decidable equality for extraction outcomes, so concrete runs can be
checked by evaluation. -/
instance {ε α : Type} [DecidableEq ε] [DecidableEq α] :
    DecidableEq (Except ε α) := fun a b =>
  match a, b with
  | .ok x, .ok y =>
    if h : x = y then .isTrue (by rw [h]) else
      .isFalse (fun hc => by cases hc; exact h rfl)
  | .error x, .error y =>
    if h : x = y then .isTrue (by rw [h]) else
      .isFalse (fun hc => by cases hc; exact h rfl)
  | .ok _, .error _ => .isFalse (fun hc => by cases hc)
  | .error _, .ok _ => .isFalse (fun hc => by cases hc)

/-! ## Concrete fixtures used to instantiate the theorems -/

/-- A selector oracle accepting every selector string. -/
def selOkAll : String → Bool := fun _ => true

/-- A selector oracle rejecting exactly the generic profile's code
selector. -/
def selOkNoCode : String → Bool := fun s => !(s == "pre, code")

/-- A selector oracle rejecting exactly the generic profile's navigation
selector. -/
def selOkNoNav : String → Bool := fun s => !(s == "nav a, .toc a")

/-- A URL environment in which nothing parses. -/
def urlEnvEmpty : UrlEnv :=
  { parse := fun _ => none, join := fun _ _ => none, render := fun _ => "" }

/-- A 120-character content text. -/
def longText : String := String.mk (List.replicate 120 'a')

/-- A document whose only substance is a 120-character content match. -/
def docLongContent : Doc :=
  { titleMatches := [], contentMatches := [[longText]], codeElems := [],
    breadcrumbTexts := [], navElems := [], apiBlocks := [] }

/-- A document whose content match is two characters long. -/
def docShort : Doc :=
  { titleMatches := [], contentMatches := [["hi"]], codeElems := [],
    breadcrumbTexts := [], navElems := [], apiBlocks := [] }

/-- A fetch collaborator serving `docLongContent` at one URL. -/
def fetchW : String → Option Doc :=
  fun u => if u == "good" then some docLongContent else none

/-- The page record the pipeline produces for `docLongContent` at URL
`good` under `selOkAll`, `urlEnvEmpty` and clock reading `0`. -/
def pageW : DocumentationPage :=
  { url := "good", title := "Documentation Page", content := longText,
    sectionName := none, subsection := none, api_endpoints := [],
    code_examples := [], last_updated := none, tags := ["reference"],
    scraped_at := "0" }

/-- A URL environment with one base URL and one resolvable link, both on
host `host`. -/
def urlEnvW : UrlEnv :=
  { parse := fun s =>
      if s == "https://host/a" then
        some { host := some "host", pathSegments := some ["a"] }
      else if s == "https://host/b" then
        some { host := some "host", pathSegments := some ["b"] }
      else none
    join := fun _ href =>
      if href == "/b" then
        some { host := some "host", pathSegments := some ["b"] }
      else none
    render := fun u =>
      if u.pathSegments == some (["b"]) then "https://host/b" else "" }

/-- A document with one resolvable navigation link and one `href`-less
one. -/
def navDocW : Doc :=
  { titleMatches := [], contentMatches := [], codeElems := [],
    breadcrumbTexts := [], navElems := [{ href := some "/b" }, { href := none }],
    apiBlocks := [] }

/-- A URL environment parsing one documentation URL with three path
segments. -/
def urlEnvPath : UrlEnv :=
  { parse := fun s =>
      if s == "https://h/docs/getting-started/install" then
        some { host := some "h",
               pathSegments := some ["docs", "getting-started", "install"] }
      else none
    join := fun _ _ => none
    render := fun _ => "" }

/-- A code element preceded (through its parent) by a short paragraph. -/
def codeElemW : CodeElem :=
  { classes := [], texts := ["0123456789"],
    parentPrev := some (some { isElem := true, name := "p", texts := ["Run this"] }) }

/-- The code example `extract_code_examples` produces from
`codeElemW`. -/
def codeExampleW : CodeExample :=
  { language := "text", code := "0123456789", description := some "Run this" }

/-! ## Claim C1 — visited-set claim atomicity -/

/-- C1: the check-then-insert step at the start of
`scrape_documentation_page` is claimed to act as one atomic critical
section, letting exactly one of N racing tasks proceed under every
interleaving.  The code takes the lock twice, and the interleaving
check(0), check(1), insert(0), insert(1) of two tasks racing on one URL
completes with BOTH tasks having claimed the URL and proceeding to
fetch, while the fully serialized interleaving lets exactly one
proceed. -/
theorem visited_claim_two_tasks_race :
    scheduleComplete 2 [0, 1, 0, 1] = true ∧
    proceedCount 2 [0, 1, 0, 1] = 2 ∧
    proceedCount 2 [0, 0, 1, 1] = 1 := by decide

/-! ## Claim C2 — language resolution order -/

/-- C2 counterexample: on an element whose class list is
`["python", "language-rust"]` the code yields `"python"` (the first
matching class in class-list order), while the claimed resolution order
(`language-` before whitelist) yields `"rust"`. -/
theorem detect_language_priority_counterexample :
    detectLanguage ["python", "language-rust"] = "python" ∧
    detectLanguageSpecOrder ["python", "language-rust"] = "rust" ∧
    detectLanguage ["python", "language-rust"] ≠
      detectLanguageSpecOrder ["python", "language-rust"] := by decide

/-- C2 amended: the detected language is decided by the FIRST class in
class-list order that either carries the `language-` marker (stripped)
or is in the whitelist; when no class matches either rule the language
is `"text"`.  The `language-` rule has no priority over the whitelist
across different classes. -/
theorem detect_language_first_match_eq (classes : List String) :
    detectLanguage classes = detectLanguageFirstMatch classes := by
  induction classes with
  | nil => rfl
  | cons c rest ih =>
    by_cases h1 : strStartsWith c "language-" = true
    · simp [detectLanguage, detectLanguageFirstMatch, List.find?, h1]
    · rw [Bool.not_eq_true] at h1
      by_cases h2 : c ∈ languageWhitelist
      · simp [detectLanguage, detectLanguageFirstMatch, List.find?, h1, h2]
      · simpa [detectLanguage, detectLanguageFirstMatch, List.find?, h1, h2] using ih

/-! ## Claim C3 — frontier underflow at `max_pages = 0` -/

/-- C3: with `max_pages = 0` the frontier computation of
`scrape_documentation_site` evaluates `max_pages - 1` on an unsigned
integer and underflows (a checked-build panic), whatever the discovery
fetch would have returned; with `max_pages ≥ 1` (and a parsable
navigation selector) the frontier is produced and holds at most
`max_pages` URLs. -/
theorem scrape_site_frontier_underflow :
    (∀ (selOk : String → Bool) (env : UrlEnv) (config : PlatformConfig)
       (fetched : Option Doc) (base_url : String),
       scrape_site_frontier selOk env config fetched base_url 0 = .error ()) ∧
    (∀ (selOk : String → Bool) (env : UrlEnv) (config : PlatformConfig)
       (fetched : Option Doc) (base_url : String) (n : Nat), 1 ≤ n →
       selOk config.navigation_selector = true →
       ∃ urls, scrape_site_frontier selOk env config fetched base_url n = .ok urls ∧
         urls.length ≤ n) := by
  constructor
  · intro selOk env config fetched base_url
    rfl
  · intro selOk env config fetched base_url n hn hnav
    have hsub : checkedSub n 1 = some (n - 1) := by simp [checkedSub, hn]
    have hdisc : ∃ ls, discover_documentation_links selOk env config fetched
        base_url (n - 1) = .ok ls := by
      cases fetched with
      | none => exact ⟨[], rfl⟩
      | some doc =>
        refine ⟨(discoverLoop env base_url (n - 1) doc.navElems []).take (n - 1), ?_⟩
        simp [discover_documentation_links, hnav]
    obtain ⟨ls, hls⟩ := hdisc
    refine ⟨(base_url :: ls).take n, ?_, ?_⟩
    · simp [scrape_site_frontier, hsub, hls, Except.map]
    · exact List.length_take_le n (base_url :: ls)

/-- C3 witness: at `max_pages = 1` with no discovery document the
frontier is produced. -/
theorem scrape_site_frontier_underflow_witness :
    ∃ urls, scrape_site_frontier selOkAll urlEnvEmpty genericConfig none "b" 1 =
      .ok urls ∧ urls.length ≤ 1 :=
  scrape_site_frontier_underflow.2 selOkAll urlEnvEmpty genericConfig none "b" 1
    (by decide) (by decide)

/-! ## Claim C4 — unparsable configured selectors -/

/-- C4 counterexample: with the generic profile active and a selector
oracle on which the profile's code selector fails to parse, a page whose
content passes the length gate makes `scrape_documentation_page` hit the
`Selector::parse(...).unwrap()` of `extract_code_examples` — a panic,
not a skip. -/
theorem unparsable_code_selector_panics :
    selOkNoCode genericConfig.code_selector = false ∧
    scrape_page_extract selOkNoCode urlEnvEmpty genericConfig docLongContent
      "u" 0 = .error () := ⟨rfl, rfl⟩

/-- C4 amended: an unparsable title or content selector is a per-page
skip (no page record, no abort), but an unparsable code selector panics
once the page passes the content gate, and an unparsable navigation
selector panics during link discovery. -/
theorem unparsable_selector_behavior :
    ∀ (selOk : String → Bool) (env : UrlEnv) (config : PlatformConfig)
      (doc : Doc) (url : String) (now : Nat),
      (selOk config.title_selector = false →
        scrape_page_extract selOk env config doc url now = .ok none) ∧
      (selOk config.content_selector = false →
        scrape_page_extract selOk env config doc url now = .ok none) ∧
      (selOk config.title_selector = true → selOk config.content_selector = true →
        selOk config.code_selector = false → 100 ≤ (extractContent doc).length →
        scrape_page_extract selOk env config doc url now = .error ()) ∧
      (∀ (base_url : String) (max_pages : Nat),
        selOk config.navigation_selector = false →
        discover_documentation_links selOk env config (some doc) base_url
          max_pages = .error ()) := by
  intro selOk env config doc url now
  refine ⟨?_, ?_, ?_, ?_⟩
  · intro h
    simp [scrape_page_extract, h]
  · intro h
    by_cases ht : selOk config.title_selector = true
    · simp [scrape_page_extract, ht, h]
    · rw [Bool.not_eq_true] at ht
      simp [scrape_page_extract, ht]
  · intro h1 h2 h3 h4
    simp [scrape_page_extract, h1, h2, h3, Nat.not_lt.mpr h4]
  · intro base_url max_pages h
    simp [discover_documentation_links, h]

/-- C4 witness: the generic profile's selectors instantiate all four
behaviors — title-selector failure skips, code-selector failure panics,
navigation-selector failure panics link discovery. -/
theorem unparsable_selector_behavior_witness :
    scrape_page_extract (fun s => !(s == "h1")) urlEnvEmpty genericConfig
      docLongContent "u" 0 = .ok none ∧
    scrape_page_extract (fun s => !(s == "main, .content, .documentation"))
      urlEnvEmpty genericConfig docLongContent "u" 0 = .ok none ∧
    scrape_page_extract selOkNoCode urlEnvEmpty genericConfig docLongContent
      "u" 0 = .error () ∧
    discover_documentation_links selOkNoNav urlEnvEmpty genericConfig
      (some docLongContent) "b" 5 = .error () :=
  ⟨(unparsable_selector_behavior (fun s => !(s == "h1")) urlEnvEmpty genericConfig
      docLongContent "u" 0).1 (by decide),
   (unparsable_selector_behavior (fun s => !(s == "main, .content, .documentation"))
      urlEnvEmpty genericConfig docLongContent "u" 0).2.1 (by decide),
   (unparsable_selector_behavior selOkNoCode urlEnvEmpty genericConfig
      docLongContent "u" 0).2.2.1 (by decide) (by decide) (by decide) (by decide),
   (unparsable_selector_behavior selOkNoNav urlEnvEmpty genericConfig
      docLongContent "u" 0).2.2.2 "b" 5 (by decide)⟩

/-! ## Claim C5 — short content is skipped -/

/-- A produced page record carries the extracted content, which passed
the 100-character gate. -/
theorem scrape_page_ok_some_content (selOk : String → Bool) (env : UrlEnv)
    (config : PlatformConfig) (doc : Doc) (url : String) (now : Nat)
    (p : DocumentationPage)
    (h : scrape_page_extract selOk env config doc url now = .ok (some p)) :
    p.content = extractContent doc ∧ 100 ≤ p.content.length := by
  simp only [scrape_page_extract] at h
  split_ifs at h with h1 h2 h3 h4
  all_goals try exact Option.noConfusion (Except.ok.inj h)
  simp only [Except.ok.injEq, Option.some.injEq] at h
  subst h
  exact ⟨rfl, Nat.le_of_not_lt h3⟩

/-- C5: a fetched document whose extracted content (text of the first
content-selector match, newline-joined and trimmed) is shorter than 100
characters yields no page record — a skip, not an error — and therefore
no page of the site-crawl result list has content shorter than 100. -/
theorem short_content_never_in_results :
    (∀ (selOk : String → Bool) (env : UrlEnv) (config : PlatformConfig)
       (doc : Doc) (url : String) (now : Nat),
       (extractContent doc).length < 100 →
       scrape_page_extract selOk env config doc url now = .ok none) ∧
    (∀ (selOk : String → Bool) (env : UrlEnv) (config : PlatformConfig)
       (fetch : String → Option Doc) (now : Nat) (urls : List String)
       (p : DocumentationPage),
       p ∈ scrape_site_collect selOk env config fetch now urls →
       100 ≤ p.content.length) := by
  constructor
  · intro selOk env config doc url now h
    by_cases h1 : selOk config.title_selector = true
    · by_cases h2 : selOk config.content_selector = true
      · simp [scrape_page_extract, h1, h2, h]
      · rw [Bool.not_eq_true] at h2
        simp [scrape_page_extract, h1, h2]
    · rw [Bool.not_eq_true] at h1
      simp [scrape_page_extract, h1]
  · intro selOk env config fetch now urls p hp
    simp only [scrape_site_collect, List.mem_filterMap, Option.bind_eq_some] at hp
    obtain ⟨u, _, doc, _, hmatch⟩ := hp
    revert hmatch
    cases hext : scrape_page_extract selOk env config doc u now with
    | error e => intro hmatch; simp at hmatch
    | ok o =>
      cases o with
      | none => intro hmatch; simp at hmatch
      | some q =>
        intro hmatch
        simp only [Option.some.injEq] at hmatch
        subst hmatch
        exact (scrape_page_ok_some_content selOk env config doc u now q hext).2

set_option maxRecDepth 8192 in
/-- C5 witness: a two-character content is skipped, and the page the
pipeline produces for a 120-character content has content length at
least 100. -/
theorem short_content_never_in_results_witness :
    scrape_page_extract selOkAll urlEnvEmpty genericConfig docShort "u" 0 =
      .ok none ∧
    100 ≤ pageW.content.length :=
  ⟨short_content_never_in_results.1 selOkAll urlEnvEmpty genericConfig docShort
      "u" 0 (by decide),
   short_content_never_in_results.2 selOkAll urlEnvEmpty genericConfig fetchW 0
      ["good"] pageW (by decide)⟩

/-! ## Claim C6 — link discovery bound and same-host filter -/

/-- One unrolling of the navigation loop, phrased through what the head
element resolves to. -/
theorem discoverLoop_cons (env : UrlEnv) (base_url : String) (max_pages : Nat)
    (e : NavElem) (rest : List NavElem) (acc : List String) :
    discoverLoop env base_url max_pages (e :: rest) acc =
      if max_pages ≤ acc.length then acc
      else
        match elemResolved env base_url e with
        | some url_str => discoverLoop env base_url max_pages rest (acc ++ [url_str])
        | none => discoverLoop env base_url max_pages rest acc := by
  by_cases hstop : max_pages ≤ acc.length
  · simp [discoverLoop, hstop]
  · simp only [discoverLoop, elemResolved, if_neg hstop]
    cases he : e.href with
    | none => simp [he]
    | some href =>
      simp only [he, Option.some_bind]
      cases hj : (env.parse base_url).bind (fun b => env.join b href) with
      | none => simp [hj]
      | some full_url =>
        simp only [hj, Option.some_bind]
        cases hb : env.parse base_url with
        | none => simp [hb]
        | some base_parsed =>
          cases hl : env.parse (env.render full_url) with
          | none => simp [hb, hl]
          | some link_parsed =>
            by_cases hh : base_parsed.host = link_parsed.host
            · simp [hb, hl, hh]
            · simp [hb, hl, hh]

/-- Once the cap is reached the navigation loop adds nothing. -/
theorem discoverLoop_stop (env : UrlEnv) (base_url : String) (max_pages : Nat)
    (elems : List NavElem) (acc : List String) (h : max_pages ≤ acc.length) :
    discoverLoop env base_url max_pages elems acc = acc := by
  cases elems with
  | nil => rfl
  | cons e rest => simp [discoverLoop, h]

/-- Every URL the navigation loop accumulates (beyond those already in
the accumulator) re-parses to the same host as the base URL. -/
theorem discoverLoop_same_host (env : UrlEnv) (base_url : String)
    (max_pages : Nat) :
    ∀ (elems : List NavElem) (acc : List String),
      (∀ u ∈ acc, ∃ bp lp, env.parse base_url = some bp ∧
        env.parse u = some lp ∧ bp.host = lp.host) →
      ∀ u ∈ discoverLoop env base_url max_pages elems acc,
        ∃ bp lp, env.parse base_url = some bp ∧ env.parse u = some lp ∧
          bp.host = lp.host := by
  intro elems
  induction elems with
  | nil =>
    intro acc hacc u hu
    exact hacc u (by simpa [discoverLoop] using hu)
  | cons e rest ih =>
    intro acc hacc u hu
    rw [discoverLoop_cons] at hu
    by_cases hstop : max_pages ≤ acc.length
    · rw [if_pos hstop] at hu
      exact hacc u hu
    · rw [if_neg hstop] at hu
      cases hres : elemResolved env base_url e with
      | none =>
        rw [hres] at hu
        exact ih acc hacc u hu
      | some url_str =>
        rw [hres] at hu
        refine ih (acc ++ [url_str]) ?_ u hu
        intro v hv
        rcases List.mem_append.mp hv with hv | hv
        · exact hacc v hv
        · rw [List.mem_singleton] at hv
          subst hv
          simp only [elemResolved, Option.bind_eq_some] at hres
          obtain ⟨href, _, full_url, _, hres⟩ := hres
          revert hres
          cases hb : env.parse base_url with
          | none => intro hres; simp at hres
          | some bp =>
            cases hl : env.parse (env.render full_url) with
            | none => intro hres; simp at hres
            | some lp =>
              intro hres
              simp only [Option.ite_none_right_eq_some, Option.some.injEq] at hres
              obtain ⟨hh, hrender⟩ := hres
              refine ⟨bp, lp, rfl, ?_, ?_⟩
              · rw [hrender] at hl
                exact hl
              · first
                | exact hh
                | exact eq_of_beq hh

/-- C6: a successful link discovery returns at most `limit` URLs, every
returned URL re-parses to exactly the base URL's host, and an element
that resolves to nothing (no `href`, failed resolution or re-parse, or
foreign host) is skipped without affecting the rest of the loop. -/
theorem discover_links_bounded_same_host :
    ∀ (selOk : String → Bool) (env : UrlEnv) (config : PlatformConfig)
      (doc : Doc) (base_url : String) (limit : Nat) (links : List String),
      discover_documentation_links selOk env config (some doc) base_url limit =
        .ok links →
      links.length ≤ limit ∧
      (∀ u ∈ links, ∃ bp lp, env.parse base_url = some bp ∧
        env.parse u = some lp ∧ bp.host = lp.host) ∧
      (∀ (e : NavElem) (rest : List NavElem) (acc : List String),
        elemResolved env base_url e = none →
        discoverLoop env base_url limit (e :: rest) acc =
          discoverLoop env base_url limit rest acc) := by
  intro selOk env config doc base_url limit links h
  simp only [discover_documentation_links] at h
  by_cases hnav : selOk config.navigation_selector = true
  · rw [if_pos hnav] at h
    simp only [Except.ok.injEq] at h
    subst h
    refine ⟨List.length_take_le limit _, ?_, ?_⟩
    · intro u hu
      exact discoverLoop_same_host env base_url limit doc.navElems []
        (by simp) u (List.mem_of_mem_take hu)
    · intro e rest acc hres
      rw [discoverLoop_cons]
      by_cases hstop : limit ≤ acc.length
      · rw [if_pos hstop, discoverLoop_stop env base_url limit rest acc hstop]
      · rw [if_neg hstop, hres]
  · rw [if_neg hnav] at h
    exact absurd h (by simp)

/-- C6 witness: one resolvable same-host link and one `href`-less
element give exactly one discovered URL under a cap of 5. -/
theorem discover_links_bounded_same_host_witness :
    (["https://host/b"] : List String).length ≤ 5 ∧
    (∀ u ∈ (["https://host/b"] : List String),
      ∃ bp lp, urlEnvW.parse "https://host/a" = some bp ∧
        urlEnvW.parse u = some lp ∧ bp.host = lp.host) ∧
    (∀ (e : NavElem) (rest : List NavElem) (acc : List String),
      elemResolved urlEnvW "https://host/a" e = none →
      discoverLoop urlEnvW "https://host/a" 5 (e :: rest) acc =
        discoverLoop urlEnvW "https://host/a" 5 rest acc) :=
  discover_links_bounded_same_host selOkAll urlEnvW genericConfig navDocW
    "https://host/a" 5 ["https://host/b"] (by decide)

/-! ## Claim C7 — URL-path section fallback -/

/-- C7: when a document yields fewer than two non-empty breadcrumbs, the
section/subsection pair comes from the URL path: with at least two
segments the section is the second-to-last segment (hyphens and
underscores to spaces, words capitalized), the subsection is the last
segment under the same transform exactly when at least three segments
exist, and with fewer than two segments both fields are unset. -/
theorem extract_section_url_fallback :
    ∀ (env : UrlEnv) (bcs : List String) (url : String) (u : UrlV)
      (segs : List String),
      ((bcs.map strTrim).filter (fun s => s ≠ "")).length ≤ 1 →
      env.parse url = some u →
      u.pathSegments = some segs →
      (segs.length ≤ 1 → extract_section_info env bcs url = (none, none)) ∧
      (∀ s, 2 ≤ segs.length → segs.get? (segs.length - 2) = some s →
        (extract_section_info env bcs url).1 =
          some (capitalize_words (replaceDashUnderscore s))) ∧
      (segs.length = 2 → (extract_section_info env bcs url).2 = none) ∧
      (∀ t, 3 ≤ segs.length → segs.getLast? = some t →
        (extract_section_info env bcs url).2 =
          some (capitalize_words (replaceDashUnderscore t))) := by
  intro env bcs url u segs hb hu hs
  have hlt : ¬ 1 < ((bcs.map strTrim).filter (fun s => s ≠ "")).length := by omega
  have hmain : extract_section_info env bcs url =
      (if 1 < segs.length then
        ((segs.get? (segs.length - 2)).map
           (fun s => capitalize_words (replaceDashUnderscore s)),
         if 2 < segs.length then
           segs.getLast?.map (fun s => capitalize_words (replaceDashUnderscore s))
         else none)
       else (none, none)) := by
    simp only [extract_section_info, hu, hs, Option.getD_some]
    rw [if_neg hlt]
  refine ⟨?_, ?_, ?_, ?_⟩
  · intro hlen
    have h1 : ¬ 1 < segs.length := by omega
    rw [hmain, if_neg h1]
  · intro s hlen hget
    have h1 : 1 < segs.length := by omega
    rw [hmain, if_pos h1, hget]
    rfl
  · intro hlen
    have h1 : 1 < segs.length := by omega
    have h2 : ¬ 2 < segs.length := by omega
    rw [hmain, if_pos h1]
    show (if 2 < segs.length then
      segs.getLast?.map (fun s => capitalize_words (replaceDashUnderscore s))
      else none) = none
    rw [if_neg h2]
  · intro t hlen hlast
    have h1 : 1 < segs.length := by omega
    have h2 : 2 < segs.length := by omega
    rw [hmain, if_pos h1]
    show (if 2 < segs.length then
      segs.getLast?.map (fun s => capitalize_words (replaceDashUnderscore s))
      else none) = some (capitalize_words (replaceDashUnderscore t))
    rw [if_pos h2, hlast]
    rfl

/-- C7 witness: a three-segment path with a whitespace-only breadcrumb
yields section `Getting Started` and subsection `Install`. -/
theorem extract_section_url_fallback_witness :
    (extract_section_info urlEnvPath [" "]
        "https://h/docs/getting-started/install").1 =
      some (capitalize_words (replaceDashUnderscore "getting-started")) ∧
    (extract_section_info urlEnvPath [" "]
        "https://h/docs/getting-started/install").2 =
      some (capitalize_words (replaceDashUnderscore "install")) :=
  ⟨(extract_section_url_fallback urlEnvPath [" "]
      "https://h/docs/getting-started/install"
      { host := some "h", pathSegments := some ["docs", "getting-started", "install"] }
      ["docs", "getting-started", "install"]
      (by decide) (by decide) rfl).2.1 "getting-started" (by decide) (by decide),
   (extract_section_url_fallback urlEnvPath [" "]
      "https://h/docs/getting-started/install"
      { host := some "h", pathSegments := some ["docs", "getting-started", "install"] }
      ["docs", "getting-started", "install"]
      (by decide) (by decide) rfl).2.2.2 "install" (by decide) (by decide)⟩

/-! ## Claim C8 — code-example description rule -/

/-- C8: every produced code example's description comes from the
one-step sibling walk of its source element, and that walk yields a
description exactly when the parent's immediately preceding sibling is a
paragraph element whose trimmed text has length strictly between 0 and
200, the description then being that trimmed text. -/
theorem code_example_description_rule :
    (∀ (elems : List CodeElem) (ex : CodeExample),
      ex ∈ extract_code_examples elems →
      ∃ e, e ∈ elems ∧ ex.description = extractDescription e) ∧
    (∀ (e : CodeElem) (d : String),
      extractDescription e = some d ↔
        ∃ node, e.parentPrev = some (some node) ∧ node.isElem = true ∧
          node.name = "p" ∧ d = joinedTrimmedText node.texts ∧
          d ≠ "" ∧ d.length < 200) := by
  constructor
  · intro elems ex hex
    simp only [extract_code_examples, List.mem_filterMap] at hex
    obtain ⟨e, he, hmk⟩ := hex
    refine ⟨e, he, ?_⟩
    revert hmk
    by_cases hlen : (joinedTrimmedText e.texts).length < 10
    · intro hmk
      rw [if_pos hlen] at hmk
      exact Option.noConfusion hmk
    · intro hmk
      rw [if_neg hlen] at hmk
      simp only [Option.some.injEq] at hmk
      subst hmk
      rfl
  · intro e d
    constructor
    · intro h
      simp only [extractDescription] at h
      revert h
      cases hpp : e.parentPrev with
      | none => intro h; exact Option.noConfusion h
      | some op =>
        cases op with
        | none => intro h; exact Option.noConfusion h
        | some node =>
          intro h
          simp only [Option.ite_none_right_eq_some, Bool.and_eq_true,
            decide_eq_true_eq, Option.some.injEq, beq_iff_eq] at h
          obtain ⟨hi, hn, ⟨hne, hsz⟩, hd⟩ := h
          subst hd
          exact ⟨node, rfl, hi, hn, rfl, hne, hsz⟩
    · rintro ⟨node, hpp, hi, hn, rfl, hne, hlt⟩
      simp [extractDescription, hpp, hi, hn, hne, hlt]

/-- C8 witness: a code element whose parent's preceding sibling is a
short paragraph yields exactly that paragraph text as description. -/
theorem code_example_description_rule_witness :
    (∃ e, e ∈ [codeElemW] ∧ codeExampleW.description = extractDescription e) ∧
    (∃ node, codeElemW.parentPrev = some (some node) ∧ node.isElem = true ∧
      node.name = "p" ∧ "Run this" = joinedTrimmedText node.texts ∧
      "Run this" ≠ "" ∧ ("Run this").length < 200) :=
  ⟨code_example_description_rule.1 [codeElemW] codeExampleW (by decide),
   (code_example_description_rule.2 codeElemW "Run this").mp (by decide)⟩

/-! ## Claim C9 — profile lookup totality -/

/-- C9: profile lookup over the lower-cased platform key returns the
registry entry when one exists, the generic profile when none does, and
in every case returns some profile. -/
theorem lookup_profile_total :
    ∀ platformKey : String,
      (∀ c, configsGet (strToLower platformKey) = some c →
        lookupConfig (strToLower platformKey) = some c) ∧
      (configsGet (strToLower platformKey) = none →
        lookupConfig (strToLower platformKey) = some genericConfig) ∧
      ∃ c, lookupConfig (strToLower platformKey) = some c := by
  intro platformKey
  have hgen : configsGet "generic" = some genericConfig := by decide
  refine ⟨?_, ?_, ?_⟩
  · intro c hc
    simp [lookupConfig, hc, Option.orElse]
  · intro hc
    simp [lookupConfig, hc, Option.orElse, hgen]
  · cases hc : configsGet (strToLower platformKey) with
    | some c => exact ⟨c, by simp [lookupConfig, hc, Option.orElse]⟩
    | none =>
      exact ⟨genericConfig, by simp [lookupConfig, hc, Option.orElse, hgen]⟩

/-- C9 witness: the key `Generic` resolves to its entry and an unknown
key falls back to the generic profile. -/
theorem lookup_profile_total_witness :
    lookupConfig (strToLower "Generic") = some genericConfig ∧
    lookupConfig (strToLower "UNKNOWN-PLATFORM") = some genericConfig :=
  ⟨(lookup_profile_total "Generic").1 genericConfig (by decide),
   (lookup_profile_total "UNKNOWN-PLATFORM").2.1 (by decide)⟩

/-! ## Claim C10 — report aggregation -/

/-- C10: an empty page list yields an empty statistics map (not an
error); a non-empty page list carries an average-content-length
statistic equal to the integer quotient of the summed content lengths by
the page count; and the average computation itself yields 0 on no
pages. -/
theorem analyze_documentation_empty_and_average :
    analyze_documentation [] = [] ∧
    (∀ pages : List DocumentationPage, pages ≠ [] →
      (analyze_documentation pages).lookup "avg_content_length" =
        some (.num ((pages.map (fun p => p.content.length)).sum / pages.length))) ∧
    avgContentLength [] = 0 := by
  refine ⟨rfl, ?_, rfl⟩
  intro pages hne
  cases pages with
  | nil => exact absurd rfl hne
  | cons p ps =>
    simp [analyze_documentation, List.lookup, avgContentLength]

/-- C10 witness: the singleton list of the fixture page has average
content length `120 / 1`. -/
theorem analyze_documentation_empty_and_average_witness :
    (analyze_documentation [pageW]).lookup "avg_content_length" =
      some (.num ((([pageW].map (fun p => p.content.length)).sum /
        ([pageW] : List DocumentationPage).length))) :=
  analyze_documentation_empty_and_average.2.1 [pageW] (List.cons_ne_nil pageW [])

end DocScraper
